import Mathlib

/-!
Shallow embedding of the lifecycle execution-orchestration core of the
ignition repository (src/ignition/service/lifecycle.py) and proofs of the
specification claims about it.

Python effects are made explicit: fallible calls return Except, the calls a
method makes on its injected collaborators (driver, job queue, postal
service) are recorded in result structures, and the filesystem touched by
the script file manager is explicit state threaded through the functions.
-/

/-- Python exceptions raised by the embedded code. valueError carries the
message string from the raise site; binasciiError models binascii.Error
raised by base64.b64decode (a ValueError subclass in Python); attributeError
models access to an attribute that was never assigned. -/
inductive PyError where
  | valueError (msg : String)
  | binasciiError
  | attributeError
deriving DecidableEq

/-- Modelled from the spec: STATUS_COMPLETE from ignition.model.lifecycle
(not under src/); the spec enumerates the status values NOT_STARTED,
IN_PROGRESS, COMPLETE, FAILED. -/
def STATUS_COMPLETE : String := "COMPLETE"

/-- Modelled from the spec: STATUS_FAILED from ignition.model.lifecycle
(not under src/). -/
def STATUS_FAILED : String := "FAILED"

/-- Modelled from the spec: STATUS_IN_PROGRESS from ignition.model.lifecycle
(not under src/). -/
def STATUS_IN_PROGRESS : String := "IN_PROGRESS"

/-- Modelled from the spec: STATUS_NOT_STARTED from ignition.model.lifecycle
(not under src/). -/
def STATUS_NOT_STARTED : String := "NOT_STARTED"

/-- Modelled from the spec: LifecycleExecution from ignition.model.lifecycle
(not under src/); the spec gives ExecutionStatus the fields requestId,
status, outputs, failureDetail. The status is kept as an arbitrary string
because only the driver produces it and the monitor compares it against the
two terminal constants. -/
structure LifecycleExecution where
  request_id : String
  status : String
  outputs : List (String × String)
  failure_details : Option String
deriving DecidableEq

/-- Modelled from the spec: LifecycleExecuteResponse from
ignition.model.lifecycle (not under src/); the acknowledgment returned by the
driver, carrying only request_id (the field read at lifecycle.py line 95 and
line 125). -/
structure LifecycleExecuteResponse where
  request_id : String
deriving DecidableEq

/-- The constant LIFECYCLE_EXECUTION_MONITOR_JOB_TYPE (lifecycle.py line 132). -/
def LIFECYCLE_EXECUTION_MONITOR_JOB_TYPE : String := "LifecycleExecutionMonitoring"

/-- A job definition dict with the three keys used by the monitoring service.
Each field embeds one dict key: the outer Option is key presence and the
inner Option is the Python value (none embeds the Python None value). DL is
the opaque deployment location type. -/
structure JobDefinition (DL : Type) where
  job_type : Option (Option String) := none
  request_id : Option (Option String) := none
  deployment_location : Option (Option DL) := none
deriving DecidableEq

/-- Reads one dict key the way job_handler tests it: the result is some v
exactly when the key is present and its value is not None, mirroring the
Python test of key absence or a None value at lifecycle.py lines 150 and 153. -/
def dictGet {A : Type} : Option (Option A) → Option A
  | some (some v) => some v
  | _ => none

/-- The observable outcome of one job_handler invocation: the boolean handed
back to the job queue, the arguments of the driver.get_lifecycle_execution
call when one was made, and the record handed to
lifecycle_messaging_service.send_lifecycle_execution when a publish call was
made. -/
structure JobHandlerResult (DL : Type) where
  returnValue : Bool
  driverQueried : Option (String × DL)
  published : Option LifecycleExecution
deriving DecidableEq

/-- LifecycleExecutionMonitoringService.job_handler (lifecycle.py lines
149-163). The injected driver is the function driver_get; its response for
(request_id, deployment_location) is queried only after both keys validate. -/
def job_handler {DL : Type} (driver_get : String → DL → LifecycleExecution)
    (job_definition : JobDefinition DL) : JobHandlerResult DL :=
  match dictGet job_definition.request_id with
  | none => { returnValue := true, driverQueried := none, published := none }
  | some request_id =>
    match dictGet job_definition.deployment_location with
    | none => { returnValue := true, driverQueried := none, published := none }
    | some deployment_location =>
      let lifecycle_execution_task := driver_get request_id deployment_location
      if [STATUS_COMPLETE, STATUS_FAILED].contains lifecycle_execution_task.status then
        { returnValue := true,
          driverQueried := some (request_id, deployment_location),
          published := some lifecycle_execution_task }
      else
        { returnValue := false,
          driverQueried := some (request_id, deployment_location),
          published := none }

/-- LifecycleExecutionMonitoringService.__create_job_definition (lifecycle.py
lines 165-170): the dict literal with all three keys present and non-None. -/
def create_job_definition {DL : Type} (request_id : String) (deployment_location : DL) :
    JobDefinition DL :=
  { job_type := some (some LIFECYCLE_EXECUTION_MONITOR_JOB_TYPE),
    request_id := some (some request_id),
    deployment_location := some (some deployment_location) }

/-- LifecycleExecutionMonitoringService.monitor_execution (lifecycle.py lines
172-177). Arguments are Option because Python callers may pass None. The ok
value is the single job definition handed to job_queue_service.queue_job; an
error value is the raised ValueError. -/
def monitor_execution {DL : Type} (request_id : Option String)
    (deployment_location : Option DL) : Except PyError (JobDefinition DL) :=
  match request_id with
  | none => .error (.valueError "Cannot monitor task when request_id is not given")
  | some rid =>
    match deployment_location with
    | none => .error (.valueError "Cannot monitor task when deployment_location is not given")
    | some dl => .ok (create_job_definition rid dl)

/-- Modelled from the spec: lifecycle_execution_dict from
ignition.model.lifecycle (not under src/); the spec fixes the serialized
field set to requestId, status, outputs, failureDetail. -/
structure ExecutionEventMessage where
  requestId : String
  status : String
  outputs : List (String × String)
  failureDetail : Option String
deriving DecidableEq

/-- Modelled from the spec: lifecycle_execution_dict from
ignition.model.lifecycle (not under src/) serializes the execution record to
the fixed field set requestId, status, outputs, failureDetail. -/
def lifecycle_execution_dict (e : LifecycleExecution) : ExecutionEventMessage :=
  { requestId := e.request_id,
    status := e.status,
    outputs := e.outputs,
    failureDetail := e.failure_details }

/-- One message posted through the postal service: the destination topic and
the serialized execution record (the JSON encoding step is kept structured). -/
structure Envelope where
  topic : String
  message : ExecutionEventMessage
deriving DecidableEq

/-- LifecycleMessagingService.send_lifecycle_execution (lifecycle.py lines
193-198). The ok value lists the envelopes handed to postal_service.post,
in order; the configured lifecycle_execution_events topic is the first
argument. -/
def send_lifecycle_execution (lifecycle_execution_events_topic : String)
    (lifecycle_execution : Option LifecycleExecution) : Except PyError (List Envelope) :=
  match lifecycle_execution with
  | none => .error (.valueError "lifecycle_execution must be set to send an lifecycle execution event")
  | some e =>
    .ok [{ topic := lifecycle_execution_events_topic,
           message := lifecycle_execution_dict e }]

/-- The lifecycle configuration property read by LifecycleService.__init__
(lifecycle.py line 114): only the async_messaging_enabled flag matters to the
dispatcher. -/
structure LifecycleConfig where
  async_messaging_enabled : Bool
deriving DecidableEq

/-- The state LifecycleService.__init__ assigns to self (lifecycle.py lines
111-118). The injected collaborators are embedded as functions: driver is
driver.execute_lifecycle, script_file_manager is
script_file_manager.build_tree (fallible), lifecycle_monitor_service is
monitor_execution of the injected monitoring service (fallible, returning
the queued job). lifecycle_monitor_service is none when the attribute is
never assigned (the async disabled branch skips the assignment). -/
structure LifecycleServiceState (Tree SP P DL : Type) where
  driver : String → Tree → SP → P → DL → LifecycleExecuteResponse
  script_file_manager : String → String → Except PyError Tree
  async_enabled : Bool
  lifecycle_monitor_service : Option (Option String → Option DL → Except PyError (JobDefinition DL))

/-- LifecycleService.__init__ (lifecycle.py lines 104-118). Each kwarg is an
Option (none embeds an absent kwarg); the checks run in source order and an
error value is the raised ValueError. -/
def lifecycle_service_init {Tree SP P DL : Type}
    (driver : Option (String → Tree → SP → P → DL → LifecycleExecuteResponse))
    (lifecycle_config : Option LifecycleConfig)
    (script_file_manager : Option (String → String → Except PyError Tree))
    (lifecycle_monitor_service : Option (Option String → Option DL → Except PyError (JobDefinition DL))) :
    Except PyError (LifecycleServiceState Tree SP P DL) :=
  match driver with
  | none => .error (.valueError "driver argument not provided")
  | some d =>
    match lifecycle_config with
    | none => .error (.valueError "lifecycle_config argument not provided")
    | some cfg =>
      match script_file_manager with
      | none => .error (.valueError "script_file_manager argument not provided")
      | some sfm =>
        if cfg.async_messaging_enabled then
          match lifecycle_monitor_service with
          | none => .error (.valueError "lifecycle_monitor_service argument not provided (required when async_messaging_enabled is True)")
          | some m =>
            .ok { driver := d, script_file_manager := sfm,
                  async_enabled := cfg.async_messaging_enabled,
                  lifecycle_monitor_service := some m }
        else
          .ok { driver := d, script_file_manager := sfm,
                async_enabled := cfg.async_messaging_enabled,
                lifecycle_monitor_service := none }

/-- The observable outcome of one LifecycleService.execute_lifecycle call:
the returned ack or raised error, the file name handed to
script_file_manager.build_tree when that call was made, the full argument
tuple of the driver.execute_lifecycle call when one was made, and the job
queued through monitor_execution when monitoring was registered. -/
structure ExecuteOutcome (Tree SP P DL : Type) where
  result : Except PyError LifecycleExecuteResponse
  built : Option String
  driverCalled : Option (String × Tree × SP × P × DL)
  monitorRegistered : Option (JobDefinition DL)

/-- LifecycleService.execute_lifecycle (lifecycle.py lines 120-129) together
with the private helper at lines 128-129. uuid4 is the string produced by
str(uuid.uuid4()) at line 121, supplied by the environment; file_name is
exactly that string. -/
def execute_lifecycle {Tree SP P DL : Type} (st : LifecycleServiceState Tree SP P DL)
    (uuid4 : String) (lifecycle_name : String) (lifecycle_scripts : String)
    (system_properties : SP) (properties : P) (deployment_location : DL) :
    ExecuteOutcome Tree SP P DL :=
  let file_name := uuid4
  match st.script_file_manager file_name lifecycle_scripts with
  | .error e =>
    { result := .error e, built := some file_name,
      driverCalled := none, monitorRegistered := none }
  | .ok lifecycle_scripts_tree =>
    let execute_response := st.driver lifecycle_name lifecycle_scripts_tree
        system_properties properties deployment_location
    let driverArgs := (lifecycle_name, lifecycle_scripts_tree, system_properties,
        properties, deployment_location)
    if st.async_enabled then
      match st.lifecycle_monitor_service with
      | none =>
        { result := .error .attributeError, built := some file_name,
          driverCalled := some driverArgs, monitorRegistered := none }
      | some monitor =>
        match monitor (some execute_response.request_id) (some deployment_location) with
        | .error e =>
          { result := .error e, built := some file_name,
            driverCalled := some driverArgs, monitorRegistered := none }
        | .ok job =>
          { result := .ok execute_response, built := some file_name,
            driverCalled := some driverArgs, monitorRegistered := some job }
    else
      { result := .ok execute_response, built := some file_name,
        driverCalled := some driverArgs, monitorRegistered := none }

/-- One entry of the flat workspace filesystem model: the archive paths hold
files with byte contents B, the extracted paths hold directories listed as
named members. -/
inductive FSEntry (B : Type) where
  | file (contents : B)
  | dir (members : List (String × B))
deriving DecidableEq

/-- The workspace filesystem as a finite path-to-entry map, the only on-disk
state the script file manager owns. -/
abbrev FileSystem (B : Type) := List (String × FSEntry B)

/-- Looks up the entry at a path. -/
def fsLookup {B : Type} (path : String) : FileSystem B → Option (FSEntry B)
  | [] => none
  | (q, e) :: rest => if q = path then some e else fsLookup path rest

/-- Modelled from the spec: os.path.exists on the flat workspace model. -/
def fsExists {B : Type} (path : String) (fs : FileSystem B) : Bool :=
  (fsLookup path fs).isSome

/-- Removes the entry at a path; models both os.remove on the archive file
and shutil.rmtree on the extracted directory (each is only invoked on an
existing path of the expected kind in the embedded code paths). -/
def fsErase {B : Type} (path : String) : FileSystem B → FileSystem B
  | [] => []
  | (q, e) :: rest => if q = path then fsErase path rest else (q, e) :: fsErase path rest

/-- Writes an entry at a path, replacing any previous entry there; models
open(path, mode wb) creating or truncating the file. -/
def fsSet {B : Type} (path : String) (e : FSEntry B) (fs : FileSystem B) : FileSystem B :=
  (path, e) :: fsErase path fs

/-- Modelled from the spec: the Python standard library calls the script file
manager makes, abstracted over payload type Payload and byte type B.
b64decode is base64.b64decode returning none where Python raises
binascii.Error; is_zipfile is zipfile.is_zipfile on the raw bytes;
zip_members lists the archive member files ZipFile.extractall would write;
emptyBytes is the empty byte string a created-then-abandoned file holds. -/
structure PyStdlib (Payload B : Type) where
  b64decode : Payload → Option B
  is_zipfile : B → Bool
  zip_members : B → List (String × B)
  emptyBytes : B

/-- Modelled from the spec: os.path.join for workspace-relative paths. -/
def os_path_join (a b : String) : String := a ++ "/" ++ b

/-- LifecycleScriptFileManagerService.__determine_package_path (lifecycle.py
lines 225-227): the archive path for a tree name, the tree name with a zip
suffix joined under the workspace root. -/
def determine_package_path (scripts_workspace tree_name : String) : String :=
  os_path_join scripts_workspace (tree_name ++ ".zip")

/-- LifecycleScriptFileManagerService.__determine_extracted_path
(lifecycle.py lines 229-231): the extracted directory path for a tree name. -/
def determine_extracted_path (scripts_workspace tree_name : String) : String :=
  os_path_join scripts_workspace tree_name

/-- LifecycleScriptFileManagerService.__clear_existing_files (lifecycle.py
lines 217-223): removes the previous package file when present, then
recursively removes the previous extracted directory when present. -/
def clear_existing_files {B : Type} (scripts_workspace tree_name : String)
    (fs : FileSystem B) : FileSystem B :=
  let package_write_path := determine_package_path scripts_workspace tree_name
  let fs1 := if fsExists package_write_path fs then fsErase package_write_path fs else fs
  let extracted_path := determine_extracted_path scripts_workspace tree_name
  if fsExists extracted_path fs1 then fsErase extracted_path fs1 else fs1

/-- LifecycleScriptFileManagerService.__write_scripts_to_disk (lifecycle.py
lines 233-237). open with mode wb creates the file before b64decode runs, so
when decoding raises the file is left on disk empty; otherwise the decoded
bytes are written. The ok value is the package path the source returns. -/
def write_scripts_to_disk {Payload B : Type} (std : PyStdlib Payload B)
    (scripts_workspace tree_name : String) (lifecycle_scripts : Payload)
    (fs : FileSystem B) : Except PyError String × FileSystem B :=
  let package_write_path := determine_package_path scripts_workspace tree_name
  match std.b64decode lifecycle_scripts with
  | none => (.error .binasciiError, fsSet package_write_path (.file std.emptyBytes) fs)
  | some raw => (.ok package_write_path, fsSet package_write_path (.file raw) fs)

/-- Modelled from the spec: ZipFile.extractall into a target directory. New
members land in the directory and overwrite same-named members, while
members already present under the path and not named by the archive survive,
so extraction alone does not clear prior contents (the clearing step is what
guarantees that). -/
def extractall {B : Type} (members : List (String × B)) (path : String)
    (fs : FileSystem B) : FileSystem B :=
  let existing := match fsLookup path fs with
    | some (.dir ms) => ms
    | _ => []
  fsSet path (.dir (existing.filter (fun m => members.all (fun n => n.1 != m.1)) ++ members)) fs

/-- LifecycleScriptFileManagerService.__extract_scripts (lifecycle.py lines
239-245): raises ValueError when the written file is not a zip file,
otherwise extracts every member into the extracted path and returns it. -/
def extract_scripts {Payload B : Type} (std : PyStdlib Payload B)
    (scripts_workspace tree_name package_path : String) (fs : FileSystem B) :
    Except PyError String × FileSystem B :=
  match fsLookup package_path fs with
  | some (.file raw) =>
    if std.is_zipfile raw then
      let extracted_path := determine_extracted_path scripts_workspace tree_name
      (.ok extracted_path, extractall (std.zip_members raw) extracted_path fs)
    else
      (.error (.valueError "lifecycle_scripts should include binary contents of a zip file"), fs)
  | _ =>
    (.error (.valueError "lifecycle_scripts should include binary contents of a zip file"), fs)

/-- DirectoryTree from ignition.utils.file (not under src/), modelled from
the spec as the handle on the extracted directory root returned to the
caller. -/
structure DirectoryTree where
  root_path : String
deriving DecidableEq

/-- LifecycleScriptFileManagerService.build_tree (lifecycle.py lines
211-215): clear previous files, write the decoded archive, extract it,
return the handle on the extracted path; any raise propagates with the
filesystem as it stood at the raise site. -/
def build_tree {Payload B : Type} (std : PyStdlib Payload B)
    (scripts_workspace tree_name : String) (lifecycle_scripts : Payload)
    (fs : FileSystem B) : Except PyError DirectoryTree × FileSystem B :=
  let fs1 := clear_existing_files scripts_workspace tree_name fs
  match write_scripts_to_disk std scripts_workspace tree_name lifecycle_scripts fs1 with
  | (.error e, fs2) => (.error e, fs2)
  | (.ok package_path, fs2) =>
    match extract_scripts std scripts_workspace tree_name package_path fs2 with
    | (.error e, fs3) => (.error e, fs3)
    | (.ok extracted_path, fs3) => (.ok { root_path := extracted_path }, fs3)

/-- Classifies the Python exceptions that realize the InvalidArchiveError of
the specification error taxonomy: binascii.Error from undecodable base64 (a
ValueError subclass) and the ValueError raised for a non-zip payload. -/
def isInvalidArchiveError : PyError → Bool
  | .binasciiError => true
  | .valueError msg => msg == "lifecycle_scripts should include binary contents of a zip file"
  | _ => false

/-- True exactly when the call raised one of the exceptions realizing the
InvalidArchiveError of the specification error taxonomy. -/
def raisesInvalidArchive {A : Type} : Except PyError A → Bool
  | .error e => isInvalidArchiveError e
  | .ok _ => false

/-- Concrete standard library instance used to evaluate the embedding on
small inputs: payloads and bytes are natural numbers, payload 0 is
undecodable, odd bytes are not zip archives, and a zip archive extracts to a
single member file named install.sh holding its byte value. -/
def natStdlib : PyStdlib Nat Nat :=
  { b64decode := fun n => if n == 0 then none else some n,
    is_zipfile := fun b => b % 2 == 0,
    zip_members := fun b => [("install.sh", b)],
    emptyBytes := 0 }

/-- Concrete driver status query whose reported status echoes the request
id, so a single driver exhibits terminal and non-terminal observations. -/
def echoDriver : String → String → LifecycleExecution :=
  fun rid dl =>
    { request_id := rid, status := rid, outputs := [("dl", dl)], failure_details := none }

/-- Concrete driver execute call used to evaluate the dispatcher. -/
def demoDriverExec : String → String → Nat → Nat → String → LifecycleExecuteResponse :=
  fun _ _ _ _ _ => { request_id := "req-abc" }

/-- Concrete script file manager that always succeeds, returning the file
name as the tree. -/
def demoBuildOk : String → String → Except PyError String :=
  fun file_name _ => .ok file_name

/-- Concrete script file manager that always raises. -/
def demoBuildFail : String → String → Except PyError String :=
  fun _ _ => .error (.valueError "disk full")

/-- Concrete dispatcher state with asynchronous monitoring enabled and the
monitoring service wired to monitor_execution. -/
def demoServiceAsync : LifecycleServiceState String Nat Nat String :=
  { driver := demoDriverExec, script_file_manager := demoBuildOk,
    async_enabled := true, lifecycle_monitor_service := some monitor_execution }

/-- Concrete dispatcher state whose script file manager always raises. -/
def demoServiceFailingBuild : LifecycleServiceState String Nat Nat String :=
  { driver := demoDriverExec, script_file_manager := demoBuildFail,
    async_enabled := true, lifecycle_monitor_service := some monitor_execution }

/-- Concrete workspace filesystem holding residue from an earlier build of
the tree named t (its archive file and its extracted directory) plus one
unrelated entry. -/
def demoWorkspace : FileSystem Nat :=
  [(determine_package_path "w" "t", .file 8),
   (determine_extracted_path "w" "t", .dir [("old.sh", 5)]),
   ("w/other", .file 7)]

theorem fsLookup_fsErase {B : Type} (p q : String) (fs : FileSystem B) :
    fsLookup q (fsErase p fs) = if q = p then none else fsLookup q fs := by
  induction fs with
  | nil => simp [fsErase, fsLookup]
  | cons hd tl ih =>
    obtain ⟨r, e⟩ := hd
    by_cases hrp : r = p
    · rw [show fsErase p ((r, e) :: tl) = fsErase p tl from by simp [fsErase, hrp], ih]
      by_cases hqp : q = p
      · simp [hqp]
      · have hrq : ¬ r = q := fun h => hqp (h ▸ hrp)
        simp [fsLookup, hqp, hrq]
    · rw [show fsErase p ((r, e) :: tl) = (r, e) :: fsErase p tl from by simp [fsErase, hrp]]
      by_cases hrq : r = q
      · have hqp : ¬ q = p := fun h => hrp (hrq.trans h)
        simp [fsLookup, hrq, hqp]
      · simp [fsLookup, hrq, ih]

theorem fsLookup_fsSet {B : Type} (p q : String) (e : FSEntry B) (fs : FileSystem B) :
    fsLookup q (fsSet p e fs) = if p = q then some e else fsLookup q fs := by
  by_cases h : p = q
  · simp [fsSet, fsLookup, h]
  · have hqp : ¬ q = p := fun h2 => h h2.symm
    simp [fsSet, fsLookup, h, fsLookup_fsErase, hqp]

theorem determine_package_path_ne_extracted (ws n : String) :
    determine_package_path ws n ≠ determine_extracted_path ws n := by
  intro h
  have hlen := congrArg String.length h
  simp [determine_package_path, determine_extracted_path, os_path_join,
    String.length_append] at hlen
  exact absurd hlen (by decide)

theorem fsExists_false_lookup {B : Type} (p : String) (fs : FileSystem B)
    (h : fsExists p fs = false) : fsLookup p fs = none := by
  cases hx : fsLookup p fs with
  | none => rfl
  | some v => rw [fsExists, hx] at h; simp at h

theorem fsLookup_eraseIfExists {B : Type} (p q : String) (fs : FileSystem B) :
    fsLookup q (if fsExists p fs then fsErase p fs else fs) =
      if q = p then none else fsLookup q fs := by
  by_cases h : fsExists p fs
  · simp [h, fsLookup_fsErase]
  · rw [if_neg h]
    by_cases hqp : q = p
    · rw [if_pos hqp, hqp]
      exact fsExists_false_lookup p fs (by simpa using h)
    · rw [if_neg hqp]

theorem fsLookup_clear {B : Type} (ws n q : String) (fs : FileSystem B) :
    fsLookup q (clear_existing_files ws n fs) =
      if q = determine_extracted_path ws n then none
      else if q = determine_package_path ws n then none
      else fsLookup q fs := by
  unfold clear_existing_files
  rw [fsLookup_eraseIfExists, fsLookup_eraseIfExists]

theorem fsLookup_build_tree_other {Payload B : Type} (std : PyStdlib Payload B)
    (ws n : String) (s : Payload) (fs : FileSystem B) (q : String)
    (h1 : q ≠ determine_package_path ws n) (h2 : q ≠ determine_extracted_path ws n) :
    fsLookup q (build_tree std ws n s fs).2 = fsLookup q fs := by
  have h1s : ¬ determine_package_path ws n = q := fun h => h1 h.symm
  have h2s : ¬ determine_extracted_path ws n = q := fun h => h2 h.symm
  cases hdec : std.b64decode s with
  | none =>
    simp [build_tree, write_scripts_to_disk, hdec, fsLookup_fsSet, h1s, fsLookup_clear, h1, h2]
  | some raw =>
    by_cases hz : std.is_zipfile raw
    · simp [build_tree, write_scripts_to_disk, extract_scripts, extractall, hdec, hz,
        fsLookup_fsSet, h1s, h2s, fsLookup_clear, h1, h2]
    · simp [build_tree, write_scripts_to_disk, extract_scripts, hdec, hz,
        fsLookup_fsSet, h1s, fsLookup_clear, h1, h2]

theorem build_tree_success_lookup {Payload B : Type} (std : PyStdlib Payload B)
    (ws n : String) (s : Payload) (raw : B) (fs : FileSystem B)
    (hdec : std.b64decode s = some raw) (hzip : std.is_zipfile raw = true) :
    (build_tree std ws n s fs).1 = .ok { root_path := determine_extracted_path ws n } ∧
    fsLookup (determine_package_path ws n) (build_tree std ws n s fs).2 = some (.file raw) ∧
    fsLookup (determine_extracted_path ws n) (build_tree std ws n s fs).2 =
      some (.dir (std.zip_members raw)) := by
  have hne := determine_package_path_ne_extracted ws n
  have hnes : ¬ determine_extracted_path ws n = determine_package_path ws n :=
    fun h => hne h.symm
  simp [build_tree, write_scripts_to_disk, extract_scripts, extractall, hdec, hzip,
    fsLookup_fsSet, fsLookup_clear, hne, hnes]

/-- C1: for every monitor job carrying a request_id and deployment_location,
job_handler publishes the full execution record through
send_lifecycle_execution and returns true exactly when the driver-reported
status is COMPLETE or FAILED; on any other reported status it returns false
and performs no publish call. -/
theorem job_handler_publishes_iff_terminal {DL : Type}
    (driver_get : String → DL → LifecycleExecution) (job : JobDefinition DL)
    (rid : String) (dl : DL)
    (h1 : dictGet job.request_id = some rid)
    (h2 : dictGet job.deployment_location = some dl) :
    (((driver_get rid dl).status = STATUS_COMPLETE ∨
        (driver_get rid dl).status = STATUS_FAILED) →
      job_handler driver_get job =
        { returnValue := true, driverQueried := some (rid, dl),
          published := some (driver_get rid dl) }) ∧
    (((driver_get rid dl).status ≠ STATUS_COMPLETE ∧
        (driver_get rid dl).status ≠ STATUS_FAILED) →
      job_handler driver_get job =
        { returnValue := false, driverQueried := some (rid, dl),
          published := none }) := by
  constructor
  · intro hterm
    simp only [job_handler, h1, h2]
    have hc : [STATUS_COMPLETE, STATUS_FAILED].contains (driver_get rid dl).status = true := by
      rcases hterm with h | h <;> simp [h]
    rw [if_pos hc]
  · intro hnon
    simp only [job_handler, h1, h2]
    have hc : [STATUS_COMPLETE, STATUS_FAILED].contains (driver_get rid dl).status = false := by
      simp [hnon.1, hnon.2]
    simp only [hc]
    rfl

theorem job_handler_publishes_iff_terminal_witness :
    job_handler echoDriver (create_job_definition "COMPLETE" "loc-1") =
      { returnValue := true, driverQueried := some ("COMPLETE", "loc-1"),
        published := some (echoDriver "COMPLETE" "loc-1") } :=
  (job_handler_publishes_iff_terminal echoDriver
      (create_job_definition "COMPLETE" "loc-1") "COMPLETE" "loc-1" rfl rfl).1
    (Or.inl rfl)

/-- C5: for every job definition missing request_id or deployment_location
(key absent or value None), job_handler returns true, querying no driver and
publishing no event. -/
theorem job_handler_missing_fields_discard {DL : Type}
    (driver_get : String → DL → LifecycleExecution) (job : JobDefinition DL)
    (h : dictGet job.request_id = none ∨ dictGet job.deployment_location = none) :
    job_handler driver_get job =
      { returnValue := true, driverQueried := none, published := none } := by
  rcases h with h | h
  · simp [job_handler, h]
  · cases hr : dictGet job.request_id <;> simp [job_handler, hr, h]

theorem job_handler_missing_fields_discard_witness :
    job_handler echoDriver
      { job_type := some (some LIFECYCLE_EXECUTION_MONITOR_JOB_TYPE),
        request_id := some none,
        deployment_location := some (some "loc-1") } =
      { returnValue := true, driverQueried := none, published := none } :=
  job_handler_missing_fields_discard echoDriver
    { job_type := some (some LIFECYCLE_EXECUTION_MONITOR_JOB_TYPE),
      request_id := some none,
      deployment_location := some (some "loc-1") }
    (Or.inl rfl)

/-- C9: any driver-reported status other than COMPLETE and FAILED, including
values outside the enumerated status set, makes job_handler return false
with no publish call: an unrecognized status is treated as non-terminal, not
as an error. -/
theorem job_handler_unrecognized_status_nonterminal {DL : Type}
    (driver_get : String → DL → LifecycleExecution) (job : JobDefinition DL)
    (rid : String) (dl : DL)
    (h1 : dictGet job.request_id = some rid)
    (h2 : dictGet job.deployment_location = some dl)
    (hs1 : (driver_get rid dl).status ≠ STATUS_COMPLETE)
    (hs2 : (driver_get rid dl).status ≠ STATUS_FAILED) :
    job_handler driver_get job =
      { returnValue := false, driverQueried := some (rid, dl), published := none } := by
  simp only [job_handler, h1, h2]
  have hc : [STATUS_COMPLETE, STATUS_FAILED].contains (driver_get rid dl).status = false := by
    simp [hs1, hs2]
  simp only [hc]
  rfl

theorem job_handler_unrecognized_status_nonterminal_witness :
    job_handler echoDriver (create_job_definition "SOME_FUTURE_STATUS" "loc-1") =
      { returnValue := false, driverQueried := some ("SOME_FUTURE_STATUS", "loc-1"),
        published := none } :=
  job_handler_unrecognized_status_nonterminal echoDriver
    (create_job_definition "SOME_FUTURE_STATUS" "loc-1") "SOME_FUTURE_STATUS" "loc-1"
    rfl rfl (by decide) (by decide)

/-- C3 counterexample: with a present but empty request_id, monitor_execution
does not raise; it enqueues a job carrying the empty request_id, because the
source checks the arguments only against None, never against emptiness. -/
theorem monitor_execution_empty_request_id_enqueues :
    monitor_execution (some "") (some "loc-1") = .ok (create_job_definition "" "loc-1") := rfl

/-- C3 amended: monitor_execution raises ValueError and enqueues no job
exactly when its request_id argument or its deployment_location argument is
None (absent); empty but present values are accepted, and whenever neither
argument is None it enqueues exactly one job with job_type
LifecycleExecutionMonitoring carrying that request_id and
deployment_location. -/
theorem monitor_execution_validation {DL : Type} (dl : Option DL) (r : String) (d : DL) :
    monitor_execution none dl =
      .error (.valueError "Cannot monitor task when request_id is not given") ∧
    monitor_execution (some r) (none : Option DL) =
      .error (.valueError "Cannot monitor task when deployment_location is not given") ∧
    monitor_execution (some r) (some d) =
      .ok { job_type := some (some "LifecycleExecutionMonitoring"),
            request_id := some (some r),
            deployment_location := some (some d) } := by
  refine ⟨rfl, rfl, ?_⟩
  simp [monitor_execution, create_job_definition, LIFECYCLE_EXECUTION_MONITOR_JOB_TYPE]

/-- C8: send_lifecycle_execution raises ValueError when the execution record
is absent; otherwise it serializes the record to the fixed field set
requestId, status, outputs, failureDetail and posts exactly one message to
the single pre-configured lifecycle execution events topic. -/
theorem send_lifecycle_execution_spec (topic : String) (e : LifecycleExecution) :
    send_lifecycle_execution topic none =
      .error (.valueError "lifecycle_execution must be set to send an lifecycle execution event") ∧
    send_lifecycle_execution topic (some e) =
      .ok [{ topic := topic,
             message := { requestId := e.request_id, status := e.status,
                          outputs := e.outputs, failureDetail := e.failure_details } }] := by
  exact ⟨rfl, rfl⟩

/-- C6: on a successful submission, execute_lifecycle builds the script tree
under the externally generated fresh uuid name (chosen before any request id
exists), calls the driver with the built tree, registers monitoring for
(ack.request_id, deployment_location) exactly when the async flag fixed at
construction is true, and returns the driver ack unchanged. -/
theorem execute_lifecycle_success_behavior {Tree SP P DL : Type}
    (st : LifecycleServiceState Tree SP P DL) (uuid4 lifecycle_name lifecycle_scripts : String)
    (sp : SP) (p : P) (dl : DL) (tree : Tree)
    (hbuild : st.script_file_manager uuid4 lifecycle_scripts = .ok tree)
    (hmon : st.async_enabled = true → st.lifecycle_monitor_service = some monitor_execution) :
    execute_lifecycle st uuid4 lifecycle_name lifecycle_scripts sp p dl =
      { result := .ok (st.driver lifecycle_name tree sp p dl),
        built := some uuid4,
        driverCalled := some (lifecycle_name, tree, sp, p, dl),
        monitorRegistered :=
          if st.async_enabled then
            some (create_job_definition (st.driver lifecycle_name tree sp p dl).request_id dl)
          else none } := by
  by_cases ha : st.async_enabled
  · simp [execute_lifecycle, hbuild, ha, hmon ha, monitor_execution]
  · simp [execute_lifecycle, hbuild, ha]

theorem execute_lifecycle_success_behavior_witness :
    execute_lifecycle demoServiceAsync "uuid-1" "install" "payload" 1 2 "loc-1" =
      { result := .ok (demoDriverExec "install" "uuid-1" 1 2 "loc-1"),
        built := some "uuid-1",
        driverCalled := some ("install", "uuid-1", 1, 2, "loc-1"),
        monitorRegistered :=
          some (create_job_definition
            (demoDriverExec "install" "uuid-1" 1 2 "loc-1").request_id "loc-1") } := by
  have h := execute_lifecycle_success_behavior demoServiceAsync "uuid-1" "install" "payload"
    1 2 "loc-1" "uuid-1" rfl (fun _ => rfl)
  simpa [demoServiceAsync] using h

/-- C7: when bundle materialization fails, execute_lifecycle propagates the
error unchanged, makes no driver call, and registers no monitor job, so a
failed submission yields no request id and no monitoring. -/
theorem execute_lifecycle_build_failure_propagates {Tree SP P DL : Type}
    (st : LifecycleServiceState Tree SP P DL) (uuid4 lifecycle_name lifecycle_scripts : String)
    (sp : SP) (p : P) (dl : DL) (e : PyError)
    (hbuild : st.script_file_manager uuid4 lifecycle_scripts = .error e) :
    execute_lifecycle st uuid4 lifecycle_name lifecycle_scripts sp p dl =
      { result := .error e, built := some uuid4,
        driverCalled := none, monitorRegistered := none } := by
  simp [execute_lifecycle, hbuild]

theorem execute_lifecycle_build_failure_propagates_witness :
    execute_lifecycle demoServiceFailingBuild "uuid-1" "install" "payload" 1 2 "loc-1" =
      { result := .error (.valueError "disk full"), built := some "uuid-1",
        driverCalled := none, monitorRegistered := none } :=
  execute_lifecycle_build_failure_propagates demoServiceFailingBuild "uuid-1" "install"
    "payload" 1 2 "loc-1" (.valueError "disk full") rfl

/-- C10: constructing LifecycleService with async_messaging_enabled true and
no lifecycle_monitor_service kwarg raises ValueError; with the flag not
true, construction succeeds with no monitor service assigned and
execute_lifecycle never accesses one (its outcome is the same whatever the
monitor field holds). -/
theorem lifecycle_service_init_monitor_requirement {Tree SP P DL : Type}
    (d : String → Tree → SP → P → DL → LifecycleExecuteResponse)
    (cfg : LifecycleConfig) (sfm : String → String → Except PyError Tree) :
    (cfg.async_messaging_enabled = true →
      lifecycle_service_init (some d) (some cfg) (some sfm)
        (none : Option (Option String → Option DL → Except PyError (JobDefinition DL))) =
        .error (.valueError "lifecycle_monitor_service argument not provided (required when async_messaging_enabled is True)")) ∧
    (cfg.async_messaging_enabled = false →
      lifecycle_service_init (some d) (some cfg) (some sfm)
        (none : Option (Option String → Option DL → Except PyError (JobDefinition DL))) =
        .ok { driver := d, script_file_manager := sfm, async_enabled := false,
              lifecycle_monitor_service := none } ∧
      ∀ (m2 : Option (Option String → Option DL → Except PyError (JobDefinition DL)))
        (uuid4 lifecycle_name lifecycle_scripts : String) (sp : SP) (p : P) (dl : DL),
        execute_lifecycle
            { driver := d, script_file_manager := sfm, async_enabled := false,
              lifecycle_monitor_service := m2 }
            uuid4 lifecycle_name lifecycle_scripts sp p dl =
          execute_lifecycle
            { driver := d, script_file_manager := sfm, async_enabled := false,
              lifecycle_monitor_service := none }
            uuid4 lifecycle_name lifecycle_scripts sp p dl) := by
  constructor
  · intro ha
    simp [lifecycle_service_init, ha]
  · intro ha
    refine ⟨by simp [lifecycle_service_init, ha], ?_⟩
    intro m2 uuid4 lifecycle_name lifecycle_scripts sp p dl
    cases hb : sfm uuid4 lifecycle_scripts <;> simp [execute_lifecycle, hb]

theorem lifecycle_service_init_monitor_requirement_witness :
    lifecycle_service_init (some demoDriverExec) (some (LifecycleConfig.mk true)) (some demoBuildOk)
      (none : Option (Option String → Option String → Except PyError (JobDefinition String))) =
      .error (.valueError "lifecycle_monitor_service argument not provided (required when async_messaging_enabled is True)") ∧
    execute_lifecycle
        { driver := demoDriverExec, script_file_manager := demoBuildOk, async_enabled := false,
          lifecycle_monitor_service := some monitor_execution }
        "uuid-1" "install" "payload" 1 2 "loc-1" =
      execute_lifecycle
        { driver := demoDriverExec, script_file_manager := demoBuildOk, async_enabled := false,
          lifecycle_monitor_service := none }
        "uuid-1" "install" "payload" 1 2 "loc-1" :=
  ⟨(lifecycle_service_init_monitor_requirement demoDriverExec (LifecycleConfig.mk true)
      demoBuildOk).1 rfl,
   ((lifecycle_service_init_monitor_requirement demoDriverExec (LifecycleConfig.mk false)
      demoBuildOk).2 rfl).2 (some monitor_execution) "uuid-1" "install" "payload" 1 2 "loc-1"⟩

/-- C2: for every payload that is undecodable base64 or whose decoded bytes
are not a well-formed zip archive, build_tree raises an exception of the
InvalidArchiveError family, and validation happens before any extraction
attempt, so the resulting workspace holds no extracted directory for that
tree name. -/
theorem build_tree_invalid_archive {Payload B : Type} (std : PyStdlib Payload B)
    (ws n : String) (s : Payload) (fs : FileSystem B)
    (h : std.b64decode s = none ∨
      ∃ raw, std.b64decode s = some raw ∧ std.is_zipfile raw = false) :
    raisesInvalidArchive (build_tree std ws n s fs).1 = true ∧
    fsLookup (determine_extracted_path ws n) (build_tree std ws n s fs).2 = none := by
  have hne := determine_package_path_ne_extracted ws n
  rcases h with h | ⟨raw, hdec, hz⟩
  · constructor
    · simp [build_tree, write_scripts_to_disk, h, raisesInvalidArchive, isInvalidArchiveError]
    · simp [build_tree, write_scripts_to_disk, h, fsLookup_fsSet, hne, fsLookup_clear]
  · constructor
    · simp [build_tree, write_scripts_to_disk, extract_scripts, hdec, hz, fsLookup_fsSet,
        raisesInvalidArchive, isInvalidArchiveError]
    · simp [build_tree, write_scripts_to_disk, extract_scripts, hdec, hz, fsLookup_fsSet,
        hne, fsLookup_clear]

theorem build_tree_invalid_archive_witness :
    raisesInvalidArchive (build_tree natStdlib "w" "t" 0 demoWorkspace).1 = true ∧
    fsLookup (determine_extracted_path "w" "t")
      (build_tree natStdlib "w" "t" 0 demoWorkspace).2 = none :=
  build_tree_invalid_archive natStdlib "w" "t" 0 demoWorkspace (Or.inl rfl)

/-- C4: build_tree clears the pre-existing archive file and the pre-existing
extracted directory of a tree name before writing and extracting, so
rebuilding the same tree name with a valid archive leaves exactly the new
archive file and the new extracted contents at the two paths of that name,
with every other path untouched and no residue from the previous build. -/
theorem build_tree_rebuild_leaves_only_new {Payload B : Type} (std : PyStdlib Payload B)
    (ws n : String) (s s2 : Payload) (raw2 : B) (fs : FileSystem B)
    (hdec : std.b64decode s2 = some raw2) (hzip : std.is_zipfile raw2 = true) :
    (fsLookup (determine_package_path ws n) (clear_existing_files ws n fs) = none ∧
     fsLookup (determine_extracted_path ws n) (clear_existing_files ws n fs) = none) ∧
    ((build_tree std ws n s2 (build_tree std ws n s fs).2).1 =
       .ok { root_path := determine_extracted_path ws n } ∧
     fsLookup (determine_package_path ws n)
       (build_tree std ws n s2 (build_tree std ws n s fs).2).2 = some (.file raw2) ∧
     fsLookup (determine_extracted_path ws n)
       (build_tree std ws n s2 (build_tree std ws n s fs).2).2 =
       some (.dir (std.zip_members raw2)) ∧
     ∀ q, q ≠ determine_package_path ws n → q ≠ determine_extracted_path ws n →
       fsLookup q (build_tree std ws n s2 (build_tree std ws n s fs).2).2 = fsLookup q fs) := by
  have hne := determine_package_path_ne_extracted ws n
  refine ⟨⟨?_, ?_⟩, ?_⟩
  · rw [fsLookup_clear]
    simp [hne]
  · rw [fsLookup_clear]
    simp
  · obtain ⟨ha, hb, hc⟩ :=
      build_tree_success_lookup std ws n s2 raw2 (build_tree std ws n s fs).2 hdec hzip
    refine ⟨ha, hb, hc, ?_⟩
    intro q hq1 hq2
    rw [fsLookup_build_tree_other std ws n s2 _ q hq1 hq2,
      fsLookup_build_tree_other std ws n s fs q hq1 hq2]

theorem build_tree_rebuild_leaves_only_new_witness :
    (build_tree natStdlib "w" "t" 6 (build_tree natStdlib "w" "t" 4 demoWorkspace).2).1 =
      .ok { root_path := determine_extracted_path "w" "t" } ∧
    fsLookup (determine_extracted_path "w" "t")
      (build_tree natStdlib "w" "t" 6 (build_tree natStdlib "w" "t" 4 demoWorkspace).2).2 =
      some (.dir [("install.sh", 6)]) ∧
    fsLookup "w/other"
      (build_tree natStdlib "w" "t" 6 (build_tree natStdlib "w" "t" 4 demoWorkspace).2).2 =
      fsLookup "w/other" demoWorkspace := by
  have h := build_tree_rebuild_leaves_only_new natStdlib "w" "t" 4 6 6 demoWorkspace rfl rfl
  exact ⟨h.2.1, by simpa [natStdlib] using h.2.2.2.1,
    h.2.2.2.2 "w/other" (by decide) (by decide)⟩
